import Mathlib

/-!
Verification of the safety-arbitration core of the robotic-arm control
program (`vison+robot_arm_project.py`).  The Python source is shallowly
embedded below: pure functions become Lean functions, the polling loops of
the worker processes become functions over explicit traces of shared-state
readings, machine floats are modelled by `ℚ` (decidable comparisons) except
where the source computes square roots or `atan2`, which are modelled over
`ℝ` via `Real.sqrt` and `Complex.arg`.
-/

namespace RobotArm

/-- Shared configuration constant `SAFETY_DISTANCE_M = 0.20` (source line 40):
the danger threshold in metres. -/
def SAFETY_DISTANCE_M : ℚ := 0.20

/-- Shared configuration constant `SAFETY_CLEAR_DISTANCE_M = 0.25` (line 41):
the hysteresis clear threshold in metres. -/
def SAFETY_CLEAR_DISTANCE_M : ℚ := 0.25

/-- `PIXEL_TO_CM_RATIO = 0.18` (line 45), the fixed empirical
pixel-to-centimetre scale of the 2D fallback distance path. -/
def PIXEL_TO_CM : ℝ := 0.18

/-- `SLOWDOWN_FACTOR = 0.7` (line 88): velocity scale applied while the
slowdown flag is set. -/
def SLOWDOWN_FACTOR : ℚ := 0.7

/-- `DEFAULT_WORKING_DISTANCE = 0.6` (line 94): default working depth in
metres used by the calibration model when no measured depth is supplied. -/
def DEFAULT_WORKING_DISTANCE : ℝ := 0.6

/-- The `999.0` sentinel written into the shared `hand_distance` cell by the
vision process when no hand is detected (line 1354). -/
def NO_HAND_SENTINEL : ℚ := 999

/-- The derived safety state; never stored, always recomputed from the
current minimum distance. -/
inductive SafetyState
  | DANGER
  | CAUTION
  | SAFE
deriving DecidableEq

/-- Rank of a safety state, with `DANGER < CAUTION < SAFE`; used to state
monotonicity of the classification. -/
def SafetyState.rank : SafetyState → ℕ
  | .DANGER => 0
  | .CAUTION => 1
  | .SAFE => 2

/-- The distance classification cascade executed identically by the vision
process (lines 1331-1339) and the monitor process (lines 1697-1705):
`d < SAFETY_DISTANCE_M → DANGER`, else `d < SAFETY_CLEAR_DISTANCE_M →
CAUTION`, else `SAFE`. -/
def classify (d : ℚ) : SafetyState :=
  if d < SAFETY_DISTANCE_M then .DANGER
  else if d < SAFETY_CLEAR_DISTANCE_M then .CAUTION
  else .SAFE

/-- One reading of the shared cells consumed by the robot process inside its
safety polling loops: the `stop_event` flag, the `hand_detected` cell
(written `0`/`1` by the vision process) and the `hand_distance` cell. -/
structure Reading where
  stopSet : Bool
  handDetected : Bool
  dist : ℚ
deriving DecidableEq

/-- `check_safety` of `robot_process` (lines 1526-1529): if a hand is
detected, safe means `hand_distance.value >= SAFETY_DISTANCE_M`; with no
hand it returns `True`. -/
def check_safety (r : Reading) : Bool :=
  if r.handDetected then decide (SAFETY_DISTANCE_M ≤ r.dist) else true

/-- `wait_safety_clear` of `robot_process` (lines 1531-1536), run over an
explicit trace of successive shared-state readings (one reading per
`CHECK_INTERVAL` poll).  `some false` models the `return False` taken when
`stop_event` is set, `some true` the `return True` taken when
`hand_detected.value == 0 or hand_distance.value >= SAFETY_CLEAR_DISTANCE_M`,
and `none` means the loop is still blocked when the trace runs out. -/
def wait_safety_clear : List Reading → Option Bool
  | [] => none
  | r :: rs =>
    if r.stopSet then some false
    else if r.handDetected = false ∨ SAFETY_CLEAR_DISTANCE_M ≤ r.dist then some true
    else wait_safety_clear rs

/-- The velocity actually passed to `movel` by `safe_movel` (line 1542):
`vel * SLOWDOWN_FACTOR if (SLOWDOWN_ENABLED and is_slowdown.value == 1) else
vel`. -/
def safe_movel_velocity (slowdownEnabled isSlowdown : Bool) (vel : ℚ) : ℚ :=
  if slowdownEnabled ∧ isSlowdown then vel * SLOWDOWN_FACTOR else vel

/-- One reading of the shared cells consumed per iteration by
`monitor_process` (lines 1686-1692). -/
structure MonitorReading where
  handDetected : Bool
  dist : ℚ
  paused : Bool
  progress : ℚ
  inWorkspace : Bool
  slowdown : Bool
deriving DecidableEq

/-- The status derivation of `monitor_process` (lines 1694-1711): the
distance classification is applied only when `hand_det and dist < 100`;
otherwise the reported state is `SAFE` (the not-detected branch). -/
def monitor_status (m : MonitorReading) : SafetyState :=
  if m.handDetected = true ∧ m.dist < 100 then classify m.dist else .SAFE

/-- Round-half-to-even on `ℚ`, the rounding mode of Python's builtin
`round`. -/
def roundHalfEven (x : ℚ) : ℤ :=
  if x - ⌊x⌋ < 1/2 then ⌊x⌋
  else if 1/2 < x - ⌊x⌋ then ⌊x⌋ + 1
  else if Even ⌊x⌋ then ⌊x⌋ else ⌊x⌋ + 1

/-- Python's `round(x, 1)` (one decimal place, half-to-even), idealised over
`ℚ`. -/
def pyRound1 (x : ℚ) : ℚ := (roundHalfEven (x * 10) : ℚ) / 10

/-- The fields of the status record broadcast by `monitor_process`
(lines 1722-1739) that are derived from the shared-state reading; the
constant calibration/ArUco fields are omitted. -/
structure StatusRecord where
  status : SafetyState
  hand_detected : Bool
  hand_distance_cm : Option ℚ
  robot_paused : Bool
  progress : ℚ
  in_workspace : Bool
  is_slowdown : Bool
deriving DecidableEq

/-- The record assembled for `server.broadcast_status` (lines 1722-1739).
In particular `hand_distance_cm` is `round(dist * 100, 1) if dist < 100
else None`. -/
def broadcast_status (m : MonitorReading) : StatusRecord where
  status := monitor_status m
  hand_detected := m.handDetected
  hand_distance_cm := if m.dist < 100 then some (pyRound1 (m.dist * 100)) else none
  robot_paused := m.paused
  progress := pyRound1 m.progress
  in_workspace := m.inWorkspace
  is_slowdown := m.slowdown

/-- The intrinsic-parameter state of the `CameraCalibration` class
(lines 116-127): focal lengths, principal point, the validity flag and the
default working depth.  The resolution and distortion coefficients are
carried by the source object but never read by the functions verified
here, so they are omitted. -/
structure CameraCalibration where
  fx : ℝ
  fy : ℝ
  cx : ℝ
  cy : ℝ
  is_calibrated : Bool
  default_depth : ℝ

/-- `CameraCalibration.pixel_to_3d` (lines 195-221): returns `None` when the
model is not calibrated, otherwise applies the pinhole relation
`X = (u - cx) * Z / fx`, `Y = (v - cy) * Z / fy`, `Z = depth`, where the
depth defaults to `default_depth` when none is supplied. -/
noncomputable def pixel_to_3d (c : CameraCalibration) (u v : ℝ) (depth_m : Option ℝ) :
    Option (ℝ × ℝ × ℝ) :=
  if c.is_calibrated = false then none
  else
    let z := depth_m.getD c.default_depth
    some ((u - c.cx) * z / c.fx, (v - c.cy) * z / c.fy, z)

/-- The fixed pixel-ratio fallback formula named by the spec:
`sqrt((u1-u2)² + (v1-v2)²) * PIXEL_TO_CM_RATIO / 100`.  (Stated from the
spec's words, to be compared with the fallback branch embedded from the
source in `calculate_3d_distance`.) -/
noncomputable def pixel_ratio_formula (p1 p2 : ℝ × ℝ) : ℝ :=
  Real.sqrt ((p1.1 - p2.1) ^ 2 + (p1.2 - p2.2) ^ 2) * PIXEL_TO_CM / 100

/-- `CameraCalibration.calculate_3d_distance` (lines 223-252): converts both
pixel points through `pixel_to_3d` and returns the Euclidean norm of the
difference; if either conversion returned `None` it falls back to
`pixel_dist * PIXEL_TO_CM_RATIO / 100` on the raw pixel coordinates. -/
noncomputable def calculate_3d_distance (c : CameraCalibration) (p1 p2 : ℝ × ℝ)
    (d1 d2 : Option ℝ) : ℝ :=
  match pixel_to_3d c p1.1 p1.2 d1, pixel_to_3d c p2.1 p2.2 d2 with
  | some q1, some q2 =>
      Real.sqrt ((q1.1 - q2.1) ^ 2 + (q1.2.1 - q2.2.1) ^ 2 + (q1.2.2 - q2.2.2) ^ 2)
  | _, _ =>
      Real.sqrt ((p1.1 - p2.1) ^ 2 + (p1.2 - p2.2) ^ 2) * PIXEL_TO_CM / 100

/-- A 2D pixel point with exact rational coordinates. -/
abbrev Pt := ℚ × ℚ

/-- Python's `int(..)` truncation toward zero applied to a rational. -/
def pyInt (q : ℚ) : ℤ := if 0 ≤ q then ⌊q⌋ else ⌈q⌉

/-- `numpy` `mean(axis=0)` over a list of 2D points. -/
def meanPt (l : List Pt) : Pt :=
  ((l.map Prod.fst).sum / l.length, (l.map Prod.snd).sum / l.length)

/-- `numpy.arctan2 y x`, modelled as the principal argument of the complex
number `x + y*i` (both have range `(-π, π]` with the same branch cut). -/
noncomputable def atan2 (y x : ℝ) : ℝ := Complex.arg ⟨x, y⟩

/-- The sort key of `_sort_corners_clockwise` (line 886): the `arctan2`
angle of a point about the centre `c`. -/
noncomputable def angleAbout (c p : Pt) : ℝ :=
  atan2 ((p.2 : ℝ) - (c.2 : ℝ)) ((p.1 : ℝ) - (c.1 : ℝ))

/-- The angular order used by `np.argsort(angles)`: nondecreasing angle
about the centre. -/
def angle_le (c : Pt) (a b : Pt) : Prop := angleAbout c a ≤ angleAbout c b

/-- The strict version of `angle_le`. -/
def angle_lt (c : Pt) (a b : Pt) : Prop := angleAbout c a < angleAbout c b

/-- `sorted_points = points[np.argsort(angles)]` (lines 886-888): the four
points sorted by `arctan2` angle about their centroid.  (With pairwise
distinct angles the result of any comparison sort is this list.) -/
noncomputable def sortByAngle (c : Pt) (l : List Pt) : List Pt :=
  @List.insertionSort Pt (angle_le c) (fun _ _ => Classical.propDecidable _) l

/-- `top_left_idx = np.argmin(sums)` (lines 890-891): index of the first
point minimising the coordinate sum `x + y`. -/
def topLeftIdx (l : List Pt) : ℕ :=
  match l.argmin (fun p => p.1 + p.2) with
  | some p => @List.indexOf Pt instBEqOfDecidableEq p l
  | none => 0

/-- `WorkspaceManager._sort_corners_clockwise` (lines 879-894): lists whose
length is not 4 are returned unchanged; otherwise the points are sorted by
`arctan2` angle about their centroid and the sequence is rolled
(`np.roll(.., -top_left_idx)`) so that the point with the lowest `x + y`
sum comes first.  In image coordinates (y grows downward) increasing
`arctan2` angle is the clockwise traversal on screen. -/
noncomputable def sort_corners_clockwise (points : List Pt) : List Pt :=
  if points.length ≠ 4 then points
  else
    (sortByAngle (meanPt points) points).rotate
      (topLeftIdx (sortByAngle (meanPt points) points))

/-- One fiducial marker returned by the external ArUco detector: its
reported id and the four corner points (`corners[i][0]`). -/
structure MarkerDetection where
  id : ℤ
  corners : List Pt
deriving DecidableEq

/-- The centre committed for one detected marker (lines 916-922):
`center = marker_corners.mean(axis=0)` followed by the `int(..)` cast of
each coordinate. -/
def markerCenter (d : MarkerDetection) : Pt :=
  ((pyInt (meanPt d.corners).1 : ℚ), (pyInt (meanPt d.corners).2 : ℚ))

/-- The mutable state of `WorkspaceManager` read or written by `update`,
`is_point_in_workspace` and the shared-state exports: the configured marker
id, the committed corner list, the committed polygon (`np.array` of the
same corners), the defined flag and the per-frame list of detected marker
centres. -/
structure Workspace where
  marker_id : ℤ
  workspace_corners : List Pt
  workspace_polygon : List Pt
  is_workspace_defined : Bool
  detected_markers : List Pt
deriving DecidableEq

/-- Number of detections carrying the configured marker id in one frame
(`none` models `ids is None`). -/
def matchCount (w : Workspace) : Option (List MarkerDetection) → ℕ
  | none => 0
  | some ds => (ds.filter (fun d => d.id == w.marker_id)).length

/-- `WorkspaceManager.update` (lines 896-930) after detector
initialisation, taking the marker detections of the frame (`none` models
`ids is None`).  `detected_markers` is reset every call; the polygon is
recommitted only when exactly four markers with the configured id are
found, and is otherwise left unchanged. -/
noncomputable def update (w : Workspace) (dets : Option (List MarkerDetection)) :
    Workspace :=
  match dets with
  | none => { w with detected_markers := [] }
  | some ds =>
      let marker_centers := (ds.filter (fun d => d.id == w.marker_id)).map markerCenter
      if marker_centers.length = 4 then
        { w with
          detected_markers := marker_centers
          workspace_corners := sort_corners_clockwise marker_centers
          workspace_polygon := sort_corners_clockwise marker_centers
          is_workspace_defined := true }
      else { w with detected_markers := marker_centers }

/-- 2D cross product `(a - o) × (b - o)`. -/
def cross2 (o a b : Pt) : ℚ :=
  (a.1 - o.1) * (b.2 - o.2) - (a.2 - o.2) * (b.1 - o.1)

/-- `p` lies on the closed segment from `a` to `b`. -/
def onSegment (a b p : Pt) : Bool :=
  decide (cross2 a b p = 0 ∧ min a.1 b.1 ≤ p.1 ∧ p.1 ≤ max a.1 b.1 ∧
    min a.2 b.2 ≤ p.2 ∧ p.2 ≤ max a.2 b.2)

/-- The horizontal ray from `p` toward `+x` properly crosses the edge
`(a, b)`. -/
def edgeCrossesRay (p : Pt) (e : Pt × Pt) : Bool :=
  decide (((e.1.2 ≤ p.2 ∧ p.2 < e.2.2) ∨ (e.2.2 ≤ p.2 ∧ p.2 < e.1.2)) ∧
    p.1 < e.1.1 + (p.2 - e.1.2) * (e.2.1 - e.1.1) / (e.2.2 - e.1.2))

/-- Model of the external call `cv2.pointPolygonTest(poly, p, False) >= 0`
(line 938), whose semantics the spec fixes at the interface boundary as
standard point-in-polygon with the boundary counted as inside: `p` is on
some edge of the polygon, or the horizontal ray from `p` crosses an odd
number of edges. -/
def pointPolygonTest (poly : List Pt) (p : Pt) : Bool :=
  ((poly.zip (poly.rotate 1)).any fun e => onSegment e.1 e.2 p) ||
    ((poly.zip (poly.rotate 1)).countP (edgeCrossesRay p)) % 2 = 1

/-- `WorkspaceManager.is_point_in_workspace` (lines 932-943): `False`
whenever no zone is defined, otherwise the point-in-polygon test against
the committed polygon. -/
def is_point_in_workspace (w : Workspace) (p : Pt) : Bool :=
  if w.is_workspace_defined = false then false
  else pointPolygonTest w.workspace_polygon p

/-- The boolean component of `WorkspaceManager.check_hand` (lines 945-955);
the statistics counters and the status string are omitted. -/
def check_hand (w : Workspace) (p : Pt) : Bool := is_point_in_workspace w p

/-- One tracked hand as delivered by the external landmark tracker, already
converted to pixel coordinates: the five fingertip landmarks `4, 8, 12, 16,
20` iterated by the distance loop (line 1274) and the palm-centre landmark
`9` used for the workspace check (line 1313). -/
structure Hand where
  tips : List Pt
  palm : Pt

/-- The frame-bounds guard `0 <= hu < W and 0 <= hv < H` (line 1280). -/
def inBounds (wdt hgt : ℚ) (p : Pt) : Bool :=
  decide (0 ≤ p.1 ∧ p.1 < wdt ∧ 0 ≤ p.2 ∧ p.2 < hgt)

/-- The running-minimum fold of the fingertip loop (lines 1265-1310):
starting from `min_distance = inf, min_hand_uv = None` it keeps the
fingertip with the smallest computed distance (`distTo` is the tool-to-tip
distance produced by the calibrated or fallback path); every computed
distance is a finite float, so the first tip always replaces the `None`
initial state. -/
noncomputable def nearestStep (distTo : Pt → ℝ) (acc : Option (Pt × ℝ)) (t : Pt) :
    Option (Pt × ℝ) :=
  match acc with
  | none => some (t, distTo t)
  | some (q, m) =>
      @ite _ (distTo t < m) (Classical.propDecidable _)
        (some (t, distTo t)) (some (q, m))

noncomputable def nearestHandPoint (distTo : Pt → ℝ) (l : List Pt) :
    Option (Pt × ℝ) :=
  l.foldl (nearestStep distTo) none

/-- The three per-frame shared flags written by the status-update block of
`vision_process` (lines 1322-1356), together with the nearest-keypoint
pixel `min_hand_uv` that the block's condition tests. -/
structure VisionFlags where
  hand_detected : Bool
  nearest : Option Pt
  hand_in_workspace : Bool
  is_slowdown : Bool

/-- The `current_hand_in_ws` accumulation of the per-hand loop
(lines 1316-1319): set when the workspace object exists
(`workspace is not None`), the zone is defined, and some hand's palm-centre
landmark passes `check_hand`. -/
def currentHandInWs (ws : Option Workspace) (hands : List Hand) : Bool :=
  match ws with
  | none => false
  | some w => hands.any fun h => w.is_workspace_defined && check_hand w h.palm

/-- The flag derivation of one `vision_process` frame (lines 1264-1356):
`min_hand_uv` is the in-bounds fingertip minimising the computed distance;
`current_hand_in_ws` is set when some hand's palm-centre landmark passes
`check_hand` while the workspace object exists and the zone is defined
(lines 1312-1320); when a nearest fingertip exists the cells are written as
`hand_in_workspace := current_hand_in_ws` and `is_slowdown :=
current_hand_in_ws and SLOWDOWN_ENABLED` (lines 1323-1327), and otherwise
all are cleared (lines 1352-1356). -/
noncomputable def vision_flags (wdt hgt : ℚ) (ws : Option Workspace)
    (slowdownEnabled : Bool) (distTo : Pt → ℝ) (hands : List Hand) : VisionFlags :=
  match nearestHandPoint distTo
      (hands.flatMap fun h => h.tips.filter (inBounds wdt hgt)) with
  | some (q, _) =>
      { hand_detected := true
        nearest := some q
        hand_in_workspace := currentHandInWs ws hands
        is_slowdown := currentHandInWs ws hands && slowdownEnabled }
  | none =>
      { hand_detected := false, nearest := none
        hand_in_workspace := false, is_slowdown := false }

/-- A synthetic fiducial marker with the configured id `0` whose four
corners form the radius-one square around `(x, y)`, so that its committed
centre is exactly `(x, y)`. -/
def sqMarker (x y : ℚ) : MarkerDetection :=
  ⟨0, [(x - 1, y - 1), (x + 1, y - 1), (x + 1, y + 1), (x - 1, y + 1)]⟩

/-- A four-marker frame whose centres form the diamond
`(5,0), (10,5), (5,10), (0,5)` (listed in increasing angle about their
centroid `(5,5)`). -/
def frameA : List MarkerDetection :=
  [sqMarker 5 0, sqMarker 10 5, sqMarker 5 10, sqMarker 0 5]

/-- A second four-marker frame with a different zone. -/
def frameB : List MarkerDetection :=
  [sqMarker 6 0, sqMarker 12 6, sqMarker 6 12, sqMarker 0 6]

/-- An under-detecting frame carrying only three markers of the configured
id. -/
def frameC : List MarkerDetection :=
  [sqMarker 5 0, sqMarker 10 5, sqMarker 5 10]

/-- The initial `WorkspaceManager` state (lines 845-856): configured marker
id `0`, no committed polygon, zone undefined. -/
def w0 : Workspace := ⟨0, [], [], false, []⟩

/-- A reachable state holding a committed convex square zone, used for
concrete containment instances. -/
def wSq : Workspace :=
  ⟨0, [(0, 0), (10, 0), (10, 10), (0, 10)],
      [(0, 0), (10, 0), (10, 10), (0, 10)], true, []⟩

/-- Four points with pairwise distinct angles about their centroid
`(3/2, 1)` and pairwise distinct coordinate sums, used to instantiate the
corner-sort properties. -/
def c7l : List Pt := [(2, 0), (3, 1), (1, 2), (0, 1)]

/-- The diamond of marker centres committed by `frameA`, listed in
increasing angle about its centroid `(5, 5)`. -/
def dmd : List Pt := [(5, 0), (10, 5), (5, 10), (0, 5)]

lemma danger_lt_clear : SAFETY_DISTANCE_M < SAFETY_CLEAR_DISTANCE_M := by
  norm_num [SAFETY_DISTANCE_M, SAFETY_CLEAR_DISTANCE_M]

lemma update_marker_id (w : Workspace) (dets : Option (List MarkerDetection)) :
    (update w dets).marker_id = w.marker_id := by
  cases dets with
  | none => rfl
  | some ds =>
    by_cases h : (ds.filter (fun d => d.id == w.marker_id)).length = 4 <;>
      simp [update, h]

lemma update_lt_four (w : Workspace) (dets : Option (List MarkerDetection))
    (h : matchCount w dets < 4) :
    (update w dets).workspace_polygon = w.workspace_polygon ∧
    (update w dets).workspace_corners = w.workspace_corners ∧
    (update w dets).is_workspace_defined = w.is_workspace_defined := by
  cases dets with
  | none => simp [update]
  | some ds =>
    have hlen : (ds.filter (fun d => d.id == w.marker_id)).length ≠ 4 :=
      Nat.ne_of_lt (by simpa [matchCount] using h)
    simp [update, hlen]

lemma update_eq_four (w : Workspace) (ds : List MarkerDetection)
    (h : matchCount w (some ds) = 4) :
    (update w (some ds)).is_workspace_defined = true ∧
    (update w (some ds)).workspace_polygon =
      sort_corners_clockwise
        ((ds.filter (fun d => d.id == w.marker_id)).map markerCenter) := by
  have hlen : (ds.filter (fun d => d.id == w.marker_id)).length = 4 := by
    simpa [matchCount] using h
  simp [update, hlen]

lemma matchCount_id (w : Workspace) (ds : List MarkerDetection)
    (h : w.marker_id = 0) :
    matchCount w (some ds) = (ds.filter (fun d => d.id == (0 : ℤ))).length := by
  simp [matchCount, h]

/-- C1: motion gating with hysteresis.  `check_safety` computes exactly
`isSafe() = (handDetected == false) OR (distance ≥ dangerDist)`, and on
every trace of shared-state readings in which the hand stays detected and
the distance stays in `[dangerDist, clearDist)`, `wait_safety_clear` never
reports safe-to-resume. -/
theorem C1_motion_gating_hysteresis :
    (∀ r : Reading,
        check_safety r = (!r.handDetected || decide (SAFETY_DISTANCE_M ≤ r.dist)))
    ∧ ∀ rs : List Reading,
        (∀ r ∈ rs, r.handDetected = true ∧ SAFETY_DISTANCE_M ≤ r.dist ∧
          r.dist < SAFETY_CLEAR_DISTANCE_M) →
        wait_safety_clear rs ≠ some true := by
  constructor
  · intro r
    cases h : r.handDetected <;> simp [check_safety, h]
  · intro rs h
    induction rs with
    | nil => simp [wait_safety_clear]
    | cons r rs ih =>
      obtain ⟨hd, _, hhi⟩ := h r (List.mem_cons_self r rs)
      have hnc : ¬ (r.handDetected = false ∨ SAFETY_CLEAR_DISTANCE_M ≤ r.dist) := by
        push_neg
        exact ⟨by simp [hd], hhi⟩
      cases hstop : r.stopSet
      · simpa [wait_safety_clear, hstop, hnc] using
          ih fun r' hr' => h r' (List.mem_cons_of_mem _ hr')
      · simp [wait_safety_clear, hstop]

theorem C1_motion_gating_hysteresis_witness :
    wait_safety_clear [⟨false, true, 0.21⟩, ⟨false, true, 0.24⟩] ≠ some true :=
  C1_motion_gating_hysteresis.2 _ (by
    intro r hr
    simp only [List.mem_cons, List.not_mem_nil, or_false] at hr
    rcases hr with rfl | rfl <;>
      exact ⟨rfl, by norm_num [SAFETY_DISTANCE_M, SAFETY_CLEAR_DISTANCE_M]⟩)

/-- C2: the safety classification is the three-way cascade
`d < dangerDist → DANGER`, `dangerDist ≤ d < clearDist → CAUTION`,
`clearDist ≤ d → SAFE`; it maps the thresholds as stated, is monotone in
`d`, and the monitor reports `SAFE` when no hand is detected, the shared
distance then holding the large sentinel `999`, which classifies `SAFE`. -/
theorem C2_classification :
    (∀ d : ℚ,
        (classify d = .DANGER ↔ d < SAFETY_DISTANCE_M) ∧
        (classify d = .CAUTION ↔ SAFETY_DISTANCE_M ≤ d ∧ d < SAFETY_CLEAR_DISTANCE_M) ∧
        (classify d = .SAFE ↔ SAFETY_CLEAR_DISTANCE_M ≤ d))
    ∧ classify SAFETY_DISTANCE_M = .CAUTION
    ∧ classify SAFETY_CLEAR_DISTANCE_M = .SAFE
    ∧ (∀ d d' : ℚ, d ≤ d' → (classify d).rank ≤ (classify d').rank)
    ∧ (∀ m : MonitorReading, m.handDetected = false → monitor_status m = .SAFE)
    ∧ classify NO_HAND_SENTINEL = .SAFE := by
  have hdc := danger_lt_clear
  refine ⟨?_, ?_, ?_, ?_, ?_, ?_⟩
  · intro d
    unfold classify
    split_ifs with h1 h2
    · exact ⟨⟨fun _ => h1, fun _ => rfl⟩,
        ⟨fun hx => absurd hx (by simp), fun hx => absurd hx.1 (not_le.mpr h1)⟩,
        ⟨fun hx => absurd hx (by simp),
          fun hx => absurd (hx.trans_lt (h1.trans hdc)) (lt_irrefl _)⟩⟩
    · exact ⟨⟨fun hx => absurd hx (by simp), fun hx => absurd hx h1⟩,
        ⟨fun _ => ⟨not_lt.mp h1, h2⟩, fun _ => rfl⟩,
        ⟨fun hx => absurd hx (by simp), fun hx => absurd hx (not_le.mpr h2)⟩⟩
    · exact ⟨⟨fun hx => absurd hx (by simp), fun hx => absurd hx h1⟩,
        ⟨fun hx => absurd hx (by simp), fun hx => absurd hx.2 h2⟩,
        ⟨fun _ => not_lt.mp h2, fun _ => rfl⟩⟩
  · simp [classify, lt_irrefl, hdc]
  · simp [classify, lt_irrefl, not_lt.mpr hdc.le]
  · intro d d' hdd
    unfold classify
    split_ifs <;>
      simp only [SafetyState.rank] <;>
      first
        | decide
        | (exfalso; linarith)
  · intro m h
    simp [monitor_status, h]
  · norm_num [classify, SAFETY_DISTANCE_M, SAFETY_CLEAR_DISTANCE_M, NO_HAND_SENTINEL]

theorem C2_classification_witness :
    (classify 0).rank ≤ (classify 1).rank ∧
    monitor_status ⟨false, 2, false, 0, false, false⟩ = .SAFE :=
  ⟨C2_classification.2.2.2.1 0 1 (by norm_num),
   C2_classification.2.2.2.2.1 _ rfl⟩

/-- C10 (counterexample): at the shared-state reading `hand_detected =
false, hand_distance = 0.15` — observable because the two cells are
written one after the other without a common lock — the broadcast
`hand_distance_cm` field is numeric, not null, so the field is not null
"exactly when the hand is not detected or the distance is at least 100". -/
theorem C10_broadcast_counterexample :
    ¬ ((broadcast_status ⟨false, 0.15, false, 0, false, false⟩).hand_distance_cm = none ↔
        ((⟨false, 0.15, false, 0, false, false⟩ : MonitorReading).handDetected = false ∨
          100 ≤ (⟨false, 0.15, false, 0, false, false⟩ : MonitorReading).dist)) := by
  intro h
  have hnone : (broadcast_status ⟨false, 0.15, false, 0, false, false⟩).hand_distance_cm
      = none := h.mpr (Or.inl rfl)
  have hlt : (0.15 : ℚ) < 100 := by norm_num
  simp [broadcast_status, hlt] at hnone

/-- C10 (amended): the broadcast `hand_distance_cm` field is null exactly
when the shared distance cell is at least 100; in particular the `999.0`
no-hand sentinel written by the perception worker is never broadcast as a
numeric distance, and whenever the reading does not have a detected hand
with distance below 100 the broadcast state is `SAFE`. -/
theorem C10_broadcast_sentinel :
    (∀ m : MonitorReading, (broadcast_status m).hand_distance_cm = none ↔ 100 ≤ m.dist)
    ∧ (∀ m : MonitorReading, m.handDetected = false → m.dist = NO_HAND_SENTINEL →
        (broadcast_status m).hand_distance_cm = none ∧
        (broadcast_status m).status = .SAFE)
    ∧ (∀ m : MonitorReading, ¬ (m.handDetected = true ∧ m.dist < 100) →
        (broadcast_status m).status = .SAFE) := by
  have hb : ∀ m : MonitorReading,
      (broadcast_status m).hand_distance_cm = none ↔ 100 ≤ m.dist := by
    intro m
    by_cases h : m.dist < 100
    · simp [broadcast_status, h, not_le.mpr h]
    · simp [broadcast_status, h, not_lt.mp h]
  refine ⟨hb, ?_, ?_⟩
  · intro m h1 h2
    refine ⟨(hb m).mpr ?_, ?_⟩
    · rw [h2]; norm_num [NO_HAND_SENTINEL]
    · simp [broadcast_status, monitor_status, h1]
  · intro m h
    simp [broadcast_status, monitor_status, h]

theorem C10_broadcast_sentinel_witness :
    (broadcast_status ⟨false, NO_HAND_SENTINEL, false, 0, false, false⟩).hand_distance_cm
        = none ∧
    (broadcast_status ⟨false, NO_HAND_SENTINEL, false, 0, false, false⟩).status = .SAFE :=
  C10_broadcast_sentinel.2.1 _ rfl rfl

/-- C5: the `pixelTo3D` contract.  An uncalibrated model yields an absent
value for every pixel and depth; a calibrated model yields
`(X, Y, Z) = ((u - cx)·Z/fx, (v - cy)·Z/fy, Z)` with `Z` the supplied
depth, or the configured default working depth when none is supplied. -/
theorem C5_pixel_to_3d_contract :
    ∀ (c : CameraCalibration) (u v : ℝ),
      (c.is_calibrated = false → ∀ d : Option ℝ, pixel_to_3d c u v d = none) ∧
      (c.is_calibrated = true →
        (∀ z : ℝ, pixel_to_3d c u v (some z) =
          some ((u - c.cx) * z / c.fx, (v - c.cy) * z / c.fy, z)) ∧
        pixel_to_3d c u v none =
          some ((u - c.cx) * c.default_depth / c.fx,
            (v - c.cy) * c.default_depth / c.fy, c.default_depth)) := by
  intro c u v
  constructor
  · intro h d
    simp [pixel_to_3d, h]
  · intro h
    constructor <;> simp [pixel_to_3d, h, Option.getD]

theorem C5_pixel_to_3d_contract_witness :
    pixel_to_3d ⟨2, 4, 10, 20, true, 0.6⟩ 12 28 (some 2) = some (2, 4, 2) := by
  rw [((C5_pixel_to_3d_contract ⟨2, 4, 10, 20, true, 0.6⟩ 12 28).2 rfl).1 2]
  norm_num

/-- C6: calibration round-trip.  For a calibrated model with nonzero focal
lengths and positive depth, re-projecting the point returned by
`pixel_to_3d` through `u' = X·fx/Z + cx`, `v' = Y·fy/Z + cy` recovers the
original pixel exactly. -/
theorem C6_calibration_roundtrip :
    ∀ (c : CameraCalibration) (u v z X Y Z : ℝ),
      c.is_calibrated = true → c.fx ≠ 0 → c.fy ≠ 0 → 0 < z →
      pixel_to_3d c u v (some z) = some (X, Y, Z) →
      X * c.fx / Z + c.cx = u ∧ Y * c.fy / Z + c.cy = v := by
  intro c u v z X Y Z hc hfx hfy hz h
  simp only [pixel_to_3d, hc, Bool.true_eq_false, if_false, Option.getD_some,
    Option.some.injEq, Prod.mk.injEq] at h
  obtain ⟨hX, hY, hZ⟩ := h
  subst hX hY hZ
  constructor <;> field_simp

theorem C6_calibration_roundtrip_witness :
    (1 : ℝ) * 2 / 1 + 10 = 12 ∧ (2 : ℝ) * 4 / 1 + 20 = 28 :=
  C6_calibration_roundtrip ⟨2, 4, 10, 20, true, 0.6⟩ 12 28 1 1 2 1 rfl
    (by norm_num) (by norm_num) one_pos
    (by simp [pixel_to_3d]; norm_num)

/-- C4: the fallback distance path.  On an uncalibrated model
`calculate_3d_distance` equals the fixed pixel-ratio formula on the same
two pixel points, and the 2D path is distinct from the calibrated 3D path:
there is a calibrated input with differing depths on which the two give
different results. -/
theorem C4_fallback_distance :
    (∀ (c : CameraCalibration) (p1 p2 : ℝ × ℝ) (d1 d2 : Option ℝ),
        c.is_calibrated = false →
        calculate_3d_distance c p1 p2 d1 d2 = pixel_ratio_formula p1 p2)
    ∧ ∃ (c : CameraCalibration) (p1 p2 : ℝ × ℝ) (d1 d2 : Option ℝ),
        c.is_calibrated = true ∧ d1 ≠ d2 ∧
        calculate_3d_distance c p1 p2 d1 d2 ≠ pixel_ratio_formula p1 p2 := by
  constructor
  · intro c p1 p2 d1 d2 h
    simp [calculate_3d_distance, pixel_to_3d, pixel_ratio_formula, h]
  · refine ⟨⟨1, 1, 0, 0, true, 0.6⟩, (0, 0), (0, 0), some 1, some 2, rfl, by simp, ?_⟩
    have h1 : calculate_3d_distance ⟨1, 1, 0, 0, true, 0.6⟩ (0, 0) (0, 0)
        (some 1) (some 2) = 1 := by
      simp only [calculate_3d_distance, pixel_to_3d, Bool.true_eq_false, if_false,
        Option.getD_some]
      norm_num
    have h2 : pixel_ratio_formula (0, 0) (0, 0) = 0 := by
      simp [pixel_ratio_formula]
    rw [h1, h2]
    exact one_ne_zero

theorem C4_fallback_distance_witness :
    calculate_3d_distance ⟨0, 0, 0, 0, false, 0.6⟩ (3, 4) (0, 0) none none =
      pixel_ratio_formula (3, 4) (0, 0) :=
  C4_fallback_distance.1 _ _ _ _ _ rfl

/-- C3: WorkspaceZone retention.  Any `update` call seeing fewer than four
detections of the configured marker id leaves the committed corner list,
the committed polygon and the defined flag unchanged; in particular after
frames carrying 4, 4, 3 detected markers the zone is still defined and
equal to the polygon committed on the second frame, and a following
4-marker frame leaves it defined. -/
theorem C3_zone_retention :
    (∀ (w : Workspace) (dets : Option (List MarkerDetection)),
        matchCount w dets < 4 →
        (update w dets).workspace_polygon = w.workspace_polygon ∧
        (update w dets).workspace_corners = w.workspace_corners ∧
        (update w dets).is_workspace_defined = w.is_workspace_defined)
    ∧ (update (update (update w0 (some frameA)) (some frameB))
        (some frameC)).is_workspace_defined = true
    ∧ (update (update (update w0 (some frameA)) (some frameB))
        (some frameC)).workspace_polygon =
      (update (update w0 (some frameA)) (some frameB)).workspace_polygon
    ∧ (update (update (update (update w0 (some frameA)) (some frameB))
        (some frameC)) (some frameA)).is_workspace_defined = true := by
  have hid1 : (update w0 (some frameA)).marker_id = 0 := by
    rw [update_marker_id]; rfl
  have hid2 : (update (update w0 (some frameA)) (some frameB)).marker_id = 0 := by
    rw [update_marker_id, hid1]
  have hid3 : (update (update (update w0 (some frameA)) (some frameB))
      (some frameC)).marker_id = 0 := by
    rw [update_marker_id, hid2]
  have hcB : matchCount (update w0 (some frameA)) (some frameB) = 4 := by
    rw [matchCount_id _ _ hid1]; rfl
  have hcC : matchCount (update (update w0 (some frameA)) (some frameB))
      (some frameC) < 4 := by
    rw [matchCount_id _ _ hid2]
    show (3 : ℕ) < 4
    decide
  have hcA : matchCount (update (update (update w0 (some frameA)) (some frameB))
      (some frameC)) (some frameA) = 4 := by
    rw [matchCount_id _ _ hid3]; rfl
  obtain ⟨hp3, hc3, hd3⟩ :=
    update_lt_four (update (update w0 (some frameA)) (some frameB)) (some frameC) hcC
  refine ⟨update_lt_four, ?_, hp3, ?_⟩
  · rw [hd3]
    exact (update_eq_four _ frameB hcB).1
  · exact (update_eq_four _ frameA hcA).1

theorem C3_zone_retention_witness :
    (update wSq (some frameC)).workspace_polygon = wSq.workspace_polygon ∧
    (update wSq (some frameC)).workspace_corners = wSq.workspace_corners ∧
    (update wSq (some frameC)).is_workspace_defined = wSq.is_workspace_defined :=
  C3_zone_retention.1 wSq (some frameC)
    (by rw [matchCount_id _ _ rfl]; exact Nat.lt_of_sub_eq_succ rfl)

/-- C8: `containsPoint` semantics.  The point-in-workspace test returns
`false` unconditionally when no zone is defined; when a zone is defined it
returns `true` exactly when the standard boundary-inclusive
point-in-polygon test accepts the point against the last committed
polygon; the centroid `(5,5)` of the committed convex square
`(0,0),(10,0),(10,10),(0,10)` is inside, its boundary point `(5,0)` is
inside, and the far point `(1000,1000)` is outside. -/
theorem C8_contains_point :
    (∀ (w : Workspace) (p : Pt), w.is_workspace_defined = false →
        is_point_in_workspace w p = false)
    ∧ (∀ (w : Workspace) (p : Pt), w.is_workspace_defined = true →
        (is_point_in_workspace w p = true ↔
          pointPolygonTest w.workspace_polygon p = true))
    ∧ is_point_in_workspace wSq (5, 5) = true
    ∧ is_point_in_workspace wSq (5, 0) = true
    ∧ is_point_in_workspace wSq (1000, 1000) = false := by
  refine ⟨?_, ?_, ?_, ?_, ?_⟩
  · intro w p h
    simp [is_point_in_workspace, h]
  · intro w p h
    simp [is_point_in_workspace, h]
  · norm_num [is_point_in_workspace, wSq, pointPolygonTest, onSegment,
      edgeCrossesRay, cross2, List.rotate, List.countP_cons, List.countP_nil,
      List.zip, List.zipWith]
  · norm_num [is_point_in_workspace, wSq, pointPolygonTest, onSegment,
      edgeCrossesRay, cross2, List.rotate, List.countP_cons, List.countP_nil,
      List.zip, List.zipWith]
  · norm_num [is_point_in_workspace, wSq, pointPolygonTest, onSegment,
      edgeCrossesRay, cross2, List.rotate, List.countP_cons, List.countP_nil,
      List.zip, List.zipWith]

theorem C8_contains_point_witness :
    is_point_in_workspace w0 (3, 3) = false ∧
    (is_point_in_workspace wSq (3, 3) = true ↔
      pointPolygonTest wSq.workspace_polygon (3, 3) = true) :=
  ⟨C8_contains_point.1 w0 (3, 3) rfl, C8_contains_point.2.1 wSq (3, 3) rfl⟩

lemma meanPt_perm {l l' : List Pt} (h : List.Perm l' l) : meanPt l' = meanPt l := by
  unfold meanPt
  rw [h.length_eq, (h.map Prod.fst).sum_eq, (h.map Prod.snd).sum_eq]

lemma sortByAngle_perm (c : Pt) (l : List Pt) : List.Perm (sortByAngle c l) l := by
  letI : DecidableRel (angle_le c) := fun _ _ => Classical.propDecidable _
  exact List.perm_insertionSort _ l

lemma sortByAngle_sorted (c : Pt) (l : List Pt) :
    List.Sorted (angle_le c) (sortByAngle c l) := by
  letI : DecidableRel (angle_le c) := fun _ _ => Classical.propDecidable _
  haveI : IsTotal Pt (angle_le c) := ⟨fun _ _ => le_total _ _⟩
  haveI : IsTrans Pt (angle_le c) := ⟨fun _ _ _ h1 h2 => le_trans h1 h2⟩
  exact List.sorted_insertionSort _ l

lemma sortByAngle_sorted_lt (c : Pt) {l : List Pt}
    (hd : l.Pairwise fun p q => angleAbout c p ≠ angleAbout c q) :
    List.Sorted (angle_lt c) (sortByAngle c l) := by
  have hs := sortByAngle_sorted c l
  have hd' : (sortByAngle c l).Pairwise fun p q => angleAbout c p ≠ angleAbout c q :=
    ((sortByAngle_perm c l).pairwise_iff fun h => Ne.symm h).mpr hd
  exact (hs.and hd').imp fun h => lt_of_le_of_ne h.1 h.2

lemma sorted_angle_unique {c : Pt} {l₁ l₂ : List Pt} (h : List.Perm l₁ l₂)
    (s₁ : List.Sorted (angle_lt c) l₁) (s₂ : List.Sorted (angle_lt c) l₂) :
    l₁ = l₂ := by
  haveI : IsAntisymm Pt (angle_lt c) := ⟨fun _ _ h1 h2 => absurd h2 (lt_asymm h1)⟩
  exact List.eq_of_perm_of_sorted h s₁ s₂

lemma sortByAngle_congr {c : Pt} {l l' : List Pt} (hp : List.Perm l' l)
    (hd : l.Pairwise fun p q => angleAbout c p ≠ angleAbout c q) :
    sortByAngle c l' = sortByAngle c l := by
  have hd' : l'.Pairwise fun p q => angleAbout c p ≠ angleAbout c q :=
    (hp.pairwise_iff fun h => Ne.symm h).mpr hd
  exact sorted_angle_unique
    ((sortByAngle_perm c l').trans (hp.trans (sortByAngle_perm c l).symm))
    (sortByAngle_sorted_lt c hd') (sortByAngle_sorted_lt c hd)

lemma topLeftIdx_le (l : List Pt) : topLeftIdx l ≤ l.length := by
  unfold topLeftIdx
  cases h : l.argmin fun p => p.1 + p.2 with
  | none => exact Nat.zero_le _
  | some m => exact List.indexOf_le_length

lemma rotate_topLeft_head {l : List Pt} (hne : l ≠ []) :
    ∃ q, (l.rotate (topLeftIdx l)).head? = some q ∧
      ∀ p ∈ l, q.1 + q.2 ≤ p.1 + p.2 := by
  obtain ⟨m, hm⟩ : ∃ m, l.argmin (fun p => p.1 + p.2) = some m := by
    cases h : l.argmin fun p => p.1 + p.2 with
    | none => exact absurd (List.argmin_eq_none.mp h) hne
    | some m => exact ⟨m, rfl⟩
  have hmem : m ∈ l := List.argmin_mem hm
  have hidx : @List.indexOf Pt instBEqOfDecidableEq m l < l.length :=
    List.indexOf_lt_length.mpr hmem
  refine ⟨m, ?_, fun p hp => List.le_of_mem_argmin hp (Option.mem_def.mpr hm)⟩
  have htop : topLeftIdx l = @List.indexOf Pt instBEqOfDecidableEq m l := by
    simp [topLeftIdx, hm]
  rw [htop, List.head?_rotate hidx, List.getElem?_eq_getElem hidx]
  simp [List.getElem_indexOf]

lemma sort_corners_eq {l : List Pt} (h : l.length = 4) :
    sort_corners_clockwise l =
      (sortByAngle (meanPt l) l).rotate (topLeftIdx (sortByAngle (meanPt l) l)) := by
  simp [sort_corners_clockwise, h]

lemma angleAbout_def (c p : Pt) :
    angleAbout c p = Complex.arg ⟨(p.1 : ℝ) - (c.1 : ℝ), (p.2 : ℝ) - (c.2 : ℝ)⟩ := rfl

lemma angleAbout_neg {c p : Pt} (h : p.2 < c.2) : angleAbout c p < 0 := by
  rw [angleAbout_def, Complex.arg_neg_iff]
  show (p.2 : ℝ) - (c.2 : ℝ) < 0
  rw [sub_neg]
  exact_mod_cast h

lemma angleAbout_nonneg {c p : Pt} (h : c.2 ≤ p.2) : 0 ≤ angleAbout c p := by
  rw [angleAbout_def, Complex.arg_nonneg_iff]
  show (0 : ℝ) ≤ (p.2 : ℝ) - (c.2 : ℝ)
  rw [sub_nonneg]
  exact_mod_cast h

lemma angleAbout_eq_zero {c p : Pt} (hx : c.1 ≤ p.1) (hy : p.2 = c.2) :
    angleAbout c p = 0 := by
  rw [angleAbout_def, Complex.arg_eq_zero_iff]
  constructor
  · show (0 : ℝ) ≤ (p.1 : ℝ) - (c.1 : ℝ)
    rw [sub_nonneg]
    exact_mod_cast hx
  · show (p.2 : ℝ) - (c.2 : ℝ) = 0
    rw [sub_eq_zero]
    exact_mod_cast hy

lemma angleAbout_eq_pi {c p : Pt} (hx : p.1 < c.1) (hy : p.2 = c.2) :
    angleAbout c p = Real.pi := by
  rw [angleAbout_def, Complex.arg_eq_pi_iff]
  constructor
  · show (p.1 : ℝ) - (c.1 : ℝ) < 0
    rw [sub_neg]
    exact_mod_cast hx
  · show (p.2 : ℝ) - (c.2 : ℝ) = 0
    rw [sub_eq_zero]
    exact_mod_cast hy

lemma angleAbout_ne_zero {c p : Pt} (hy : p.2 ≠ c.2) : angleAbout c p ≠ 0 := by
  rw [angleAbout_def, Ne, Complex.arg_eq_zero_iff]
  rintro ⟨-, him⟩
  apply hy
  have h0 : (p.2 : ℝ) - (c.2 : ℝ) = 0 := him
  rw [sub_eq_zero] at h0
  exact_mod_cast h0

lemma angleAbout_ne_pi {c p : Pt} (hy : p.2 ≠ c.2) : angleAbout c p ≠ Real.pi := by
  rw [angleAbout_def, Ne, Complex.arg_eq_pi_iff]
  rintro ⟨-, him⟩
  apply hy
  have h0 : (p.2 : ℝ) - (c.2 : ℝ) = 0 := him
  rw [sub_eq_zero] at h0
  exact_mod_cast h0

lemma angleAbout_pos {c p : Pt} (h : c.2 < p.2) : 0 < angleAbout c p :=
  lt_of_le_of_ne (angleAbout_nonneg h.le) (Ne.symm (angleAbout_ne_zero (ne_of_gt h)))

lemma angleAbout_lt_pi {c p : Pt} (h : p.2 ≠ c.2) : angleAbout c p < Real.pi :=
  lt_of_le_of_ne (by rw [angleAbout_def]; exact Complex.arg_le_pi _)
    (angleAbout_ne_pi h)

lemma pairwise_lt_of_chain (c : Pt) {l : List Pt}
    (h : List.Chain' (angle_lt c) l) : l.Pairwise (angle_lt c) := by
  haveI : IsTrans Pt (angle_lt c) := ⟨fun _ _ _ h1 h2 => lt_trans h1 h2⟩
  exact List.chain'_iff_pairwise.mp h

lemma meanPt_c7l : meanPt c7l = (3/2, 1) := by
  norm_num [meanPt, c7l]

lemma c7l_pairwise_lt : c7l.Pairwise (angle_lt ((3 : ℚ)/2, (1 : ℚ))) := by
  apply pairwise_lt_of_chain
  simp only [c7l, List.chain'_cons, List.chain'_singleton, and_true]
  refine ⟨?_, ?_, ?_⟩
  · exact (angleAbout_neg (by norm_num)).trans_eq
      (angleAbout_eq_zero (by norm_num) (by norm_num)).symm
  · exact (angleAbout_eq_zero (by norm_num) (by norm_num)).trans_lt
      (angleAbout_pos (by norm_num))
  · exact (angleAbout_lt_pi (by norm_num)).trans_eq
      (angleAbout_eq_pi (by norm_num) (by norm_num)).symm

lemma c7l_angles_distinct :
    c7l.Pairwise fun p q =>
      angleAbout (meanPt c7l) p ≠ angleAbout (meanPt c7l) q := by
  rw [meanPt_c7l]
  exact c7l_pairwise_lt.imp fun h => ne_of_lt h

lemma c7l_sums_distinct : c7l.Pairwise fun p q => p.1 + p.2 ≠ q.1 + q.2 := by
  norm_num [c7l, List.pairwise_cons]

/-- C7: corner-sort permutation invariance.  For four points with no ties
in `arctan2` angle about their centroid and no ties in coordinate sum,
every permutation of the input yields the same output; that output is a
permutation of the four points whose head has the lowest `x + y` sum, and
some rotation of it is strictly sorted by angle about the centroid —
i.e. the output is the clockwise (in image coordinates) cyclic order
started at the top-left-most point. -/
theorem C7_corner_sort :
    ∀ l l' : List Pt, l.length = 4 →
      (l.Pairwise fun p q => angleAbout (meanPt l) p ≠ angleAbout (meanPt l) q) →
      (l.Pairwise fun p q => p.1 + p.2 ≠ q.1 + q.2) →
      List.Perm l' l →
      sort_corners_clockwise l' = sort_corners_clockwise l ∧
      List.Perm (sort_corners_clockwise l) l ∧
      (∃ q, (sort_corners_clockwise l).head? = some q ∧
        ∀ p ∈ l, q.1 + q.2 ≤ p.1 + p.2) ∧
      ∃ k, ((sort_corners_clockwise l).rotate k).Sorted (angle_lt (meanPt l)) := by
  intro l l' hlen hangles _hsums hperm
  have hlen' : l'.length = 4 := hperm.length_eq.trans hlen
  have hmean : meanPt l' = meanPt l := meanPt_perm hperm
  have hsort : sortByAngle (meanPt l) l' = sortByAngle (meanPt l) l :=
    sortByAngle_congr hperm hangles
  refine ⟨?_, ?_, ?_, ?_⟩
  · rw [sort_corners_eq hlen', sort_corners_eq hlen, hmean, hsort]
  · rw [sort_corners_eq hlen]
    exact (List.rotate_perm _ _).trans (sortByAngle_perm _ _)
  · rw [sort_corners_eq hlen]
    have hne : sortByAngle (meanPt l) l ≠ [] := by
      apply List.ne_nil_of_length_pos
      rw [(sortByAngle_perm (meanPt l) l).length_eq, hlen]
      norm_num
    obtain ⟨q, hq, hmin⟩ := rotate_topLeft_head hne
    exact ⟨q, hq, fun p hp =>
      hmin p ((sortByAngle_perm (meanPt l) l).mem_iff.mpr hp)⟩
  · rw [sort_corners_eq hlen]
    refine ⟨(sortByAngle (meanPt l) l).length -
      topLeftIdx (sortByAngle (meanPt l) l), ?_⟩
    rw [List.rotate_rotate, Nat.add_sub_cancel' (topLeftIdx_le _),
      List.rotate_length]
    exact sortByAngle_sorted_lt _ hangles

theorem C7_corner_sort_witness :
    sort_corners_clockwise (c7l.rotate 3) = sort_corners_clockwise c7l :=
  (C7_corner_sort c7l (c7l.rotate 3) rfl c7l_angles_distinct c7l_sums_distinct
    (List.rotate_perm c7l 3)).1

lemma meanPt_dmd : meanPt dmd = (5, 5) := by
  norm_num [meanPt, dmd]

lemma dmd_pairwise_lt : dmd.Pairwise (angle_lt ((5 : ℚ), (5 : ℚ))) := by
  apply pairwise_lt_of_chain
  simp only [dmd, List.chain'_cons, List.chain'_singleton, and_true]
  refine ⟨?_, ?_, ?_⟩
  · exact (angleAbout_neg (by norm_num)).trans_eq
      (angleAbout_eq_zero (by norm_num) (by norm_num)).symm
  · exact (angleAbout_eq_zero (by norm_num) (by norm_num)).trans_lt
      (angleAbout_pos (by norm_num))
  · exact (angleAbout_lt_pi (by norm_num)).trans_eq
      (angleAbout_eq_pi (by norm_num) (by norm_num)).symm

lemma sortByAngle_dmd : sortByAngle ((5 : ℚ), (5 : ℚ)) dmd = dmd :=
  sorted_angle_unique (sortByAngle_perm _ _)
    (sortByAngle_sorted_lt _ (dmd_pairwise_lt.imp fun h => ne_of_lt h))
    dmd_pairwise_lt

lemma topLeftIdx_dmd : topLeftIdx dmd = 0 := by
  have h : dmd.argmin (fun p => p.1 + p.2) = some ((5 : ℚ), (0 : ℚ)) := by
    rw [List.argmin_eq_some_iff]
    refine ⟨by simp [dmd], ?_, ?_⟩
    · intro a ha
      simp only [dmd, List.mem_cons, List.not_mem_nil, or_false] at ha
      rcases ha with rfl | rfl | rfl | rfl <;> norm_num
    · intro a ha _
      simp [dmd, List.indexOf_cons_self]
  unfold topLeftIdx
  rw [h]
  simp [dmd, List.indexOf_cons_self]

lemma sort_corners_dmd : sort_corners_clockwise dmd = dmd := by
  rw [sort_corners_eq (l := dmd) rfl, meanPt_dmd, sortByAngle_dmd, topLeftIdx_dmd,
    List.rotate_zero]

lemma centers_frameA :
    (frameA.filter (fun d => d.id == (0 : ℤ))).map markerCenter = dmd := by
  norm_num [frameA, sqMarker, markerCenter, meanPt, pyInt, dmd]

lemma update_frameA :
    (update w0 (some frameA)).is_workspace_defined = true ∧
    (update w0 (some frameA)).workspace_polygon = dmd := by
  have hc : matchCount w0 (some frameA) = 4 := by
    rw [matchCount_id _ _ rfl]
    rfl
  obtain ⟨hd, hp⟩ := update_eq_four w0 frameA hc
  refine ⟨hd, ?_⟩
  have hid : w0.marker_id = (0 : ℤ) := rfl
  rw [hp, hid, centers_frameA, sort_corners_dmd]

lemma nearestStep_some (d : Pt → ℝ) (q : Pt) (m : ℝ) (t : Pt) :
    ∃ p, nearestStep d (some (q, m)) t = some p := by
  unfold nearestStep
  by_cases h : d t < m
  · exact ⟨(t, d t), if_pos h⟩
  · exact ⟨(q, m), if_neg h⟩

lemma foldl_nearestStep_isSome (d : Pt → ℝ) :
    ∀ (ts : List Pt) (p : Pt × ℝ),
      (List.foldl (nearestStep d) (some p) ts).isSome = true := by
  intro ts
  induction ts with
  | nil => intro p; rfl
  | cons t ts ih =>
    intro p
    obtain ⟨q, m⟩ := p
    obtain ⟨p', hp'⟩ := nearestStep_some d q m t
    rw [List.foldl_cons, hp']
    exact ih p'

lemma nearestHandPoint_isSome (d : Pt → ℝ) (l : List Pt) :
    (nearestHandPoint d l).isSome = !l.isEmpty := by
  cases l with
  | nil => rfl
  | cons t ts =>
    show (List.foldl (nearestStep d) (nearestStep d none t) ts).isSome = _
    rw [show nearestStep d none t = some (t, d t) from rfl,
      foldl_nearestStep_isSome d ts (t, d t)]
    rfl

lemma vision_flags_hand_detected (wdt hgt : ℚ) (ws : Option Workspace)
    (enabled : Bool) (d : Pt → ℝ) (hands : List Hand) :
    (vision_flags wdt hgt ws enabled d hands).hand_detected =
      !(hands.flatMap fun h => h.tips.filter (inBounds wdt hgt)).isEmpty := by
  unfold vision_flags
  cases hl : hands.flatMap fun h => h.tips.filter (inBounds wdt hgt) with
  | nil => rfl
  | cons t ts =>
    obtain ⟨p, hp⟩ := Option.isSome_iff_exists.mp
      (show (nearestHandPoint d (t :: ts)).isSome = true by
        rw [nearestHandPoint_isSome]; rfl)
    rw [hp]
    obtain ⟨q, m⟩ := p
    rfl

lemma vision_flags_is_slowdown (wdt hgt : ℚ) (ws : Option Workspace)
    (enabled : Bool) (d : Pt → ℝ) (hands : List Hand) :
    (vision_flags wdt hgt ws enabled d hands).is_slowdown =
      (!(hands.flatMap fun h => h.tips.filter (inBounds wdt hgt)).isEmpty &&
        (currentHandInWs ws hands && enabled)) := by
  unfold vision_flags
  cases hl : hands.flatMap fun h => h.tips.filter (inBounds wdt hgt) with
  | nil => rfl
  | cons t ts =>
    obtain ⟨p, hp⟩ := Option.isSome_iff_exists.mp
      (show (nearestHandPoint d (t :: ts)).isSome = true by
        rw [nearestHandPoint_isSome]; rfl)
    rw [hp]
    obtain ⟨q, m⟩ := p
    rfl

lemma currentHandInWs_iff (ws : Option Workspace) (hands : List Hand) :
    currentHandInWs ws hands = true ↔
      ∃ w, ws = some w ∧ ∃ h ∈ hands, check_hand w h.palm = true := by
  cases ws with
  | none => simp [currentHandInWs]
  | some w =>
    simp only [currentHandInWs, List.any_eq_true, Bool.and_eq_true,
      Option.some.injEq]
    constructor
    · rintro ⟨h, hh, -, hcheck⟩
      exact ⟨w, rfl, h, hh, hcheck⟩
    · rintro ⟨w', hw', h, hh, hcheck⟩
      subst hw'
      refine ⟨h, hh, ?_, hcheck⟩
      cases hdd : w.is_workspace_defined with
      | true => rfl
      | false =>
        rw [check_hand, is_point_in_workspace, if_pos hdd] at hcheck
        exact absurd hcheck (by simp)

/-- C9 (counterexample): on the frame whose zone is the committed diamond
polygon (reached through `update` on `frameA`), with one hand whose only
in-bounds fingertip `(5,5)` — hence the nearest hand keypoint — is inside
the zone while its palm-centre landmark `(20,20)` is outside, and with
slowdown enabled, the vision process does **not** assert the slowdown flag:
the flag follows the palm-centre landmark, not the nearest keypoint. -/
theorem C9_slowdown_counterexample :
    (vision_flags 1280 720 (some (update w0 (some frameA))) true (fun _ => 0)
        [⟨[(5, 5)], (20, 20)⟩]).nearest = some (5, 5) ∧
    is_point_in_workspace (update w0 (some frameA)) (5, 5) = true ∧
    (vision_flags 1280 720 (some (update w0 (some frameA))) true (fun _ => 0)
        [⟨[(5, 5)], (20, 20)⟩]).is_slowdown = false := by
  obtain ⟨hd, hp⟩ := update_frameA
  have hin : inBounds 1280 720 ((5 : ℚ), (5 : ℚ)) = true := by
    simp only [inBounds, decide_eq_true_eq]
    norm_num
  have htips : (([⟨[(5, 5)], (20, 20)⟩] : List Hand).flatMap
      fun h => h.tips.filter (inBounds 1280 720)) = [((5 : ℚ), (5 : ℚ))] := by
    simp [hin]
  have hnear : nearestHandPoint (fun _ => (0 : ℝ)) [((5 : ℚ), (5 : ℚ))] =
      some ((5, 5), 0) := rfl
  have hcur : currentHandInWs (some (update w0 (some frameA)))
      [⟨[(5, 5)], (20, 20)⟩] = false := by
    simp only [currentHandInWs, List.any_cons, List.any_nil, Bool.or_false,
      hd, Bool.true_and]
    simp only [check_hand, is_point_in_workspace, hd, hp]
    norm_num [pointPolygonTest, onSegment, edgeCrossesRay, cross2,
      List.rotate, List.countP_cons, List.countP_nil, List.zip,
      List.zipWith, dmd]
  refine ⟨?_, ?_, ?_⟩
  · unfold vision_flags
    rw [htips, hnear]
  · simp only [is_point_in_workspace, hd, hp]
    norm_num [pointPolygonTest, onSegment, edgeCrossesRay, cross2,
      List.rotate, List.countP_cons, List.countP_nil, List.zip,
      List.zipWith, dmd]
  · rw [vision_flags_is_slowdown, htips, hcur]
    rfl

/-- C9 (amended): the slowdown flag is asserted exactly when a hand is
detected, slowdown is enabled, and some detected hand's palm-centre
landmark (keypoint 9) — not the nearest keypoint — passes the workspace
containment test; the flag is independent of the computed distances (hence
of the SAFE/CAUTION/DANGER state); and when the flag is set with slowdown
enabled, `safe_movel` passes the planned velocity scaled by
`SLOWDOWN_FACTOR` to the driver. -/
theorem C9_slowdown_flag :
    (∀ (wdt hgt : ℚ) (ws : Option Workspace) (enabled : Bool)
        (d1 d2 : Pt → ℝ) (hands : List Hand),
        (vision_flags wdt hgt ws enabled d1 hands).is_slowdown =
          (vision_flags wdt hgt ws enabled d2 hands).is_slowdown)
    ∧ (∀ (wdt hgt : ℚ) (ws : Option Workspace) (enabled : Bool)
        (d : Pt → ℝ) (hands : List Hand),
        (vision_flags wdt hgt ws enabled d hands).is_slowdown = true ↔
          (vision_flags wdt hgt ws enabled d hands).hand_detected = true ∧
          enabled = true ∧
          ∃ w, ws = some w ∧ ∃ h ∈ hands, check_hand w h.palm = true)
    ∧ (∀ (enabled slow : Bool) (vel : ℚ), enabled = true → slow = true →
        safe_movel_velocity enabled slow vel = vel * SLOWDOWN_FACTOR) := by
  refine ⟨?_, ?_, ?_⟩
  · intro wdt hgt ws enabled d1 d2 hands
    rw [vision_flags_is_slowdown, vision_flags_is_slowdown]
  · intro wdt hgt ws enabled d hands
    rw [vision_flags_is_slowdown, vision_flags_hand_detected]
    simp only [Bool.and_eq_true]
    rw [currentHandInWs_iff]
    tauto
  · intro enabled slow vel h1 h2
    simp [safe_movel_velocity, h1, h2]

theorem C9_slowdown_flag_witness :
    safe_movel_velocity true true 50 = 50 * SLOWDOWN_FACTOR :=
  C9_slowdown_flag.2.2 true true 50 rfl rfl

end RobotArm
